import Mathlib

/-!
Shallow embedding of the map-generation core of `src/main.py` (a Flask app
that turns spreadsheets into folium maps), together with proofs checking the
natural-language specification against it.

Modelling conventions, used throughout:
* Numeric cell values are rationals (`ℚ`); the Python source uses floats but
  every claim under verification involves only small decimal constants where
  float and exact arithmetic agree.
* Python `str.lower()` / `str.upper()` are embedded as an explicit ASCII
  letter table (`pares_maiusculas`).  Python also case-maps non-ASCII letters,
  but every alias, table key and constant compared by the source is
  ASCII-lowercase (the accented characters appearing in keys such as
  `"são paulo"` are already lowercase and are fixed points of both maps), so
  the restriction is faithful on all comparisons the program performs.
* Python `str.strip()` is embedded as dropping leading/trailing whitespace
  (space, tab, CR, LF); `replace('_','').replace(' ','')` as a filter.
* A pandas cell is `Cell`: a number, a string, or null (NaN).  `pd.to_numeric
  (errors='coerce')` is embedded as mapping non-numeric cells to null;
  pandas would additionally parse numeric string literals, which no verified
  claim depends on.
* `raise` is embedded as `Except.error`; the Python wrappers re-raise with a
  prefixed message, which no claim inspects.
-/

namespace GeoCody

/-! ## String helpers (embedding of the Python string operations used) -/

/-- The ASCII upper/lower case letter pairs: the case mapping performed by
`str.lower()` / `str.upper()` on the characters this program compares. -/
def pares_maiusculas : List (Char × Char) :=
  [('A', 'a'), ('B', 'b'), ('C', 'c'), ('D', 'd'), ('E', 'e'), ('F', 'f'),
   ('G', 'g'), ('H', 'h'), ('I', 'i'), ('J', 'j'), ('K', 'k'), ('L', 'l'),
   ('M', 'm'), ('N', 'n'), ('O', 'o'), ('P', 'p'), ('Q', 'q'), ('R', 'r'),
   ('S', 's'), ('T', 't'), ('U', 'u'), ('V', 'v'), ('W', 'w'), ('X', 'x'),
   ('Y', 'y'), ('Z', 'z')]

/-- Lower-case one character (embedding of the per-character action of
Python `str.lower()`). -/
def lowerChar (c : Char) : Char := (pares_maiusculas.lookup c).getD c

/-- Upper-case one character (embedding of the per-character action of
Python `str.upper()`). -/
def upperChar (c : Char) : Char :=
  ((pares_maiusculas.map (fun p => (p.2, p.1))).lookup c).getD c

/-- Embedding of Python `s.lower()`. -/
def lowerStr (s : String) : String := ⟨s.data.map lowerChar⟩

/-- Embedding of Python `s.upper()`. -/
def upperStr (s : String) : String := ⟨s.data.map upperChar⟩

/-- Embedding of `col.lower().replace('_', '').replace(' ', '')`
(main.py line 138 and 166): the normalized form of a column header. -/
def normalizeHeader (s : String) : String :=
  ⟨(s.data.map lowerChar).filter (fun c => !(c == '_' || c == ' '))⟩

/-- Strip leading and trailing whitespace from a character list
(embedding of Python `str.strip()`). -/
def trimList (l : List Char) : List Char :=
  (l.dropWhile Char.isWhitespace).rdropWhile Char.isWhitespace

/-- Embedding of Python `s.strip()`. -/
def stripStr (s : String) : String := ⟨trimList s.data⟩

/-- Embedding of `.str.lower().str.strip()` applied to a state name
(main.py line 266). -/
def normalizar_estado (s : String) : String := stripStr (lowerStr s)

/-- Embedding of Python `s.zfill(n)` (for the non-negative strings this
program pads: no sign handling is needed). -/
def zfill (n : Nat) (s : String) : String :=
  if s.length ≥ n then s
  else ⟨List.replicate (n - s.length) '0' ++ s.data⟩

/-! ## Cells and data frames -/

instance instDecidableEqExcept {ε α : Type} [DecidableEq ε] [DecidableEq α] :
    DecidableEq (Except ε α) := fun x y =>
  match x, y with
  | Except.error a, Except.error b =>
    if h : a = b then isTrue (by rw [h])
    else isFalse (by intro hc; cases hc; exact h rfl)
  | Except.error _, Except.ok _ => isFalse (by intro hc; cases hc)
  | Except.ok _, Except.error _ => isFalse (by intro hc; cases hc)
  | Except.ok a, Except.ok b =>
    if h : a = b then isTrue (by rw [h])
    else isFalse (by intro hc; cases hc; exact h rfl)

/-- A pandas cell, as the source observes it: a number, a string, or
null/NaN. -/
inductive Cell where
  | null : Cell
  | num (q : ℚ) : Cell
  | str (s : String) : Cell
deriving DecidableEq

/-- Embedding of a loaded spreadsheet (`pd.read_excel` result): the ordered
column headers and the rows, each row aligned with the headers. -/
structure DataFrame where
  headers : List String
  rows : List (List Cell)
deriving DecidableEq

/-- Read the cell of column `h` in a row (missing positions read as null). -/
def DataFrame.get (df : DataFrame) (row : List Cell) (h : String) : Cell :=
  match df.headers.findIdx? (fun c => c == h) with
  | some i => row.getD i Cell.null
  | none => Cell.null

/-- `pd.notna`: is the cell non-null? -/
def notNull : Cell → Bool
  | Cell.null => false
  | _ => true

/-- Embedding of `Series.between(lo, hi)` on the cells this program keeps:
true exactly on numbers in the closed range.  (Nulls are dropped before
this filter runs in the source; pandas would raise on string cells, a path
outside every verified claim.) -/
def entre (lo hi : ℚ) : Cell → Bool
  | Cell.num q => decide (lo ≤ q) && decide (q ≤ hi)
  | _ => false

/-- Embedding of `pd.to_numeric(·, errors='coerce')`: numbers survive,
everything else coerces to null.  (pandas would additionally parse numeric
string literals; no verified claim depends on that.) -/
def to_numeric : Cell → Cell
  | Cell.num q => Cell.num q
  | _ => Cell.null

/-- Embedding of `astype(str)` on a single cell (cells reaching it in the
source are non-null; integral rationals print as Python prints ints). -/
def cellToString : Cell → String
  | Cell.str s => s
  | Cell.num q => toString q
  | Cell.null => "nan"

/-! ## The region-code table (main.py lines 32-71) -/

/-- `ESTADOS_BRASIL`: lowercase state name → two-letter code. -/
def ESTADOS_BRASIL : List (String × String) :=
  [("acre", "AC"), ("alagoas", "AL"), ("amapá", "AP"), ("amapa", "AP"),
   ("amazonas", "AM"), ("bahia", "BA"), ("ceará", "CE"), ("ceara", "CE"),
   ("distrito federal", "DF"), ("espírito santo", "ES"),
   ("espirito santo", "ES"), ("goiás", "GO"), ("goias", "GO"),
   ("maranhão", "MA"), ("maranhao", "MA"), ("mato grosso", "MT"),
   ("mato grosso do sul", "MS"), ("minas gerais", "MG"), ("pará", "PA"),
   ("para", "PA"), ("paraíba", "PB"), ("paraiba", "PB"), ("paraná", "PR"),
   ("parana", "PR"), ("pernambuco", "PE"), ("piauí", "PI"), ("piaui", "PI"),
   ("rio de janeiro", "RJ"), ("rio grande do norte", "RN"),
   ("rio grande do sul", "RS"), ("rondônia", "RO"), ("rondonia", "RO"),
   ("roraima", "RR"), ("santa catarina", "SC"), ("são paulo", "SP"),
   ("sao paulo", "SP"), ("sergipe", "SE"), ("tocantins", "TO")]

/-- `ESTADOS_BRASIL.get(estado_norm, estado_norm.upper())`
(main.py line 546): map a normalized state name to its code, falling back
to the uppercased input when the table has no entry. -/
def sigla_do_estado (estado_norm : String) : String :=
  (ESTADOS_BRASIL.lookup estado_norm).getD (upperStr estado_norm)

/-! ## Column alias lists (verbatim from the source) -/

/-- Normalized municipality-code aliases (main.py lines 141 and 167). -/
def colunas_municipio : List String :=
  ["codigoibge", "ibge", "codigo", "idmunicipio", "codibge"]

/-- State-indicator aliases (main.py lines 145 and 220). -/
def colunas_estado : List String := ["estado", "states", "uf", "sigla"]

/-- Value-column aliases of the municipality pipeline (main.py line 176). -/
def colunas_valor_municipios : List String :=
  ["valor", "quantidade", "intensidade", "peso", "populacao", "population"]

/-- Quantity-column aliases of the state pipeline (main.py line 235). -/
def colunas_opcionais_estados : List String :=
  ["quantidade", "intensidade", "valor", "peso", "populacao", "population"]

/-- Optional quantity aliases of the coordinates pipeline (main.py line 282). -/
def colunas_opcionais_coordenadas : List String :=
  ["quantidade", "intensidade", "valor", "peso"]

/-! ## Column matchers, as each pipeline actually implements them -/

/-- Municipality-code column search (main.py lines 165-169): scan the
headers in column order and return the first whose normalized form is any
of the aliases. -/
def encontrar_col_codigo (headers : List String) : Option String :=
  headers.find? (fun h => colunas_municipio.contains (normalizeHeader h))

/-- Value column search of the municipality pipeline (main.py lines
178-181): scan the headers in column order, comparing the lowercased
header against the alias list. -/
def encontrar_col_valor (headers : List String) : Option String :=
  headers.find? (fun h => colunas_valor_municipios.contains (lowerStr h))

/-- Alias-priority search used by the state and coordinates pipelines
(main.py lines 222-228, 237-243, 304-310, 319-325): try each alias in
order and, within an alias, each header in column order, comparing the
lowercased header for equality with the alias. -/
def primeira_correspondencia (aliases headers : List String) : Option String :=
  aliases.findSome? (fun a => headers.find? (fun h => lowerStr h == a))

/-- Alternative names tried for each required coordinates column
(main.py lines 296-302). -/
def alternativas_de (col_obrig : String) : List String :=
  if col_obrig == "latitude" then ["lat", "y", "latitude"]
  else if col_obrig == "longitude" then ["lon", "lng", "long", "x", "longitude"]
  else ["descricao", "descrição", "description", "nome", "name", "titulo", "título"]

/-- Required-column search of the coordinates pipeline (main.py lines
288-315): first an exact (lowercased) match on the canonical name, then
the alternatives in priority order. -/
def encontrar_coluna_obrigatoria (headers : List String) (col_obrig : String) :
    Option String :=
  match headers.find? (fun h => lowerStr h == col_obrig) with
  | some c => some c
  | none => primeira_correspondencia (alternativas_de col_obrig) headers

/-- Column matching as the specification words it (spec §4.1), for
comparison with the matchers above: the first actual header whose
case-folded, whitespace/underscore-stripped form equals an alias, trying
aliases in priority order and, within an alias, headers in column order. -/
def matchColumnSpec (headers aliases : List String) : Option String :=
  aliases.findSome? (fun a => headers.find? (fun h => normalizeHeader h == normalizeHeader a))

/-! ## Schema classification (main.py lines 137-153) -/

/-- The three data shapes of `processar_excel`'s dispatch. -/
inductive TipoDados where
  | municipios : TipoDados
  | estados : TipoDados
  | coordenadas : TipoDados
deriving DecidableEq

/-- `tem_coluna_municipio` (main.py lines 141-142). -/
def tem_coluna_municipio (headers : List String) : Bool :=
  colunas_municipio.any (fun c => (headers.map normalizeHeader).contains c)

/-- `tem_coluna_estado` (main.py lines 145-146). -/
def tem_coluna_estado (headers : List String) : Bool :=
  colunas_estado.any (fun c => (headers.map normalizeHeader).contains c)

/-- The classification decision of `processar_excel` (main.py lines
148-153): municipality indicators win, then state indicators, else
coordinates. -/
def classificar (headers : List String) : TipoDados :=
  if tem_coluna_municipio headers then TipoDados.municipios
  else if tem_coluna_estado headers then TipoDados.estados
  else TipoDados.coordenadas

/-! ## Municipality pipeline: `processar_excel_municipios`
(main.py lines 158-213) -/

/-- A record of the municipality pipeline's output: zero-padded IBGE code
and the (coerced) value cell. -/
structure MunRecord where
  codigo_ibge : String
  valor : Cell
deriving DecidableEq

/-- The cleaning steps of the municipality pipeline on the selected
(code, value) column pair: drop nulls, stringify and zero-pad the code,
coerce the value to numeric, drop non-numeric, keep values ≥ 0
(main.py lines 196-204). -/
def limpar_municipios (linhas : List (Cell × Cell)) : List MunRecord :=
  let l1 := linhas.filter (fun p => notNull p.1 && notNull p.2)
  let l2 := l1.map (fun p => MunRecord.mk (zfill 7 (cellToString p.1)) (to_numeric p.2))
  let l3 := l2.filter (fun r => notNull r.valor)
  l3.filter (fun r => match r.valor with | Cell.num q => decide (0 ≤ q) | _ => false)

/-- `processar_excel_municipios` (main.py lines 158-213): resolve the code
and value columns, clean, fail on an empty result, and return the records
together with the constant capability flag `True` and the shape tag. -/
def processar_excel_municipios (df : DataFrame) :
    Except String (List MunRecord × Bool × String) :=
  match encontrar_col_codigo df.headers with
  | none => Except.error
      "Coluna de código IBGE não encontrada. Use: 'codigo_ibge', 'ibge', 'codigo' ou 'id_municipio'"
  | some col_codigo =>
    match encontrar_col_valor df.headers with
    | none => Except.error
        "Coluna de valor não encontrada para mapa coroplético de municípios"
    | some col_valor =>
      if limpar_municipios (df.rows.map (fun r => (df.get r col_codigo, df.get r col_valor))) = [] then
        Except.error "Nenhum dado válido encontrado para mapa coroplético de municípios"
      else
        Except.ok
          (limpar_municipios (df.rows.map (fun r => (df.get r col_codigo, df.get r col_valor))),
           true, "municipios")

/-! ## State pipeline: `processar_excel_estados` (main.py lines 215-275) -/

/-- A record of the state pipeline's output: the raw state cell, the
(coerced) quantity cell, and the derived normalized state name. -/
structure EstRecord where
  estado : Cell
  quantidade : Cell
  estado_normalizado : Cell
deriving DecidableEq

/-- `.str.lower().str.strip()` on one cell: the pandas `.str` accessor
yields null on non-string cells. -/
def normalizar_estado_cell : Cell → Cell
  | Cell.str s => Cell.str (normalizar_estado s)
  | _ => Cell.null

/-- The cleaning steps of the state pipeline on the selected
(state, quantity) column pair: drop nulls, coerce the quantity, drop
non-numeric, keep quantities ≥ 0, then derive the normalized state name
(main.py lines 258-266). -/
def limpar_estados (linhas : List (Cell × Cell)) : List EstRecord :=
  let l1 := linhas.filter (fun p => notNull p.1 && notNull p.2)
  let l2 := l1.map (fun p => (p.1, to_numeric p.2))
  let l3 := l2.filter (fun p => notNull p.2)
  let l4 := l3.filter (fun p => match p.2 with | Cell.num q => decide (0 ≤ q) | _ => false)
  l4.map (fun p => EstRecord.mk p.1 p.2 (normalizar_estado_cell p.1))

/-- `processar_excel_estados` (main.py lines 215-275): resolve the state
and quantity columns, clean, fail on an empty result, and return the
records together with the constant capability flag `True` and the shape
tag. -/
def processar_excel_estados (df : DataFrame) :
    Except String (List EstRecord × Bool × String) :=
  match primeira_correspondencia colunas_estado df.headers with
  | none => Except.error "Coluna de estado não encontrada. Use: 'estado', 'uf' ou 'sigla'"
  | some col_estado =>
    match primeira_correspondencia colunas_opcionais_estados df.headers with
    | none => Except.error "Coluna de quantidade não encontrada para mapa coroplético"
    | some col_quantidade =>
      if limpar_estados (df.rows.map (fun r => (df.get r col_estado, df.get r col_quantidade))) = [] then
        Except.error "Nenhum dado válido encontrado para mapa coroplético"
      else
        Except.ok
          (limpar_estados (df.rows.map (fun r => (df.get r col_estado, df.get r col_quantidade))),
           true, "coroplético")

/-! ## Coordinates pipeline: `processar_excel_coordenadas`
(main.py lines 277-372) -/

/-- A record of the coordinates pipeline: the latitude, longitude and
description cells, plus the quantity cell when a quantity column was
resolved. -/
structure Ponto where
  latitude : Cell
  longitude : Cell
  descricao : Cell
  quantidade : Option Cell
deriving DecidableEq

/-- The raw points of a data frame, read through the resolved columns;
empty when a required column is missing (the pipeline then fails before
reading rows). -/
def pontos_brutos (df : DataFrame) : List Ponto :=
  match encontrar_coluna_obrigatoria df.headers "latitude",
        encontrar_coluna_obrigatoria df.headers "longitude",
        encontrar_coluna_obrigatoria df.headers "descricao" with
  | some clat, some clon, some cdesc =>
    df.rows.map (fun r =>
      Ponto.mk (df.get r clat) (df.get r clon) (df.get r cdesc)
        ((primeira_correspondencia colunas_opcionais_coordenadas df.headers).map (df.get r)))
  | _, _, _ => []

/-- `pd.to_numeric` applied to the quantity column of one record. -/
def coerce_quantidade (p : Ponto) : Ponto :=
  { p with quantidade := p.quantidade.map to_numeric }

/-- Does the record hold a numeric quantity? (the `dropna` on the coerced
quantity column). -/
def quantidade_numerica (p : Ponto) : Bool :=
  match p.quantidade with
  | some (Cell.num _) => true
  | _ => false

/-- Is the record's quantity strictly positive? -/
def quantidade_positiva (p : Ponto) : Bool :=
  match p.quantidade with
  | some (Cell.num q) => decide (0 < q)
  | _ => false

/-- The cleaning steps of the coordinates pipeline (main.py lines
345-360): drop nulls in the required fields, range-check latitude and
longitude, and — when a quantity column was resolved — coerce the
quantity, drop non-numeric, and keep strictly positive quantities. -/
def limpar_pontos (tem_quantidade : Bool) (pontos : List Ponto) : List Ponto :=
  let p1 := pontos.filter (fun p =>
    notNull p.latitude && notNull p.longitude && notNull p.descricao)
  let p2 := p1.filter (fun p =>
    entre (-90) 90 p.latitude && entre (-180) 180 p.longitude)
  if tem_quantidade then
    ((p2.map coerce_quantidade).filter quantidade_numerica).filter quantidade_positiva
  else p2

/-- Does a raw row survive every cleaning step of the coordinates
pipeline?  (The composed acceptance predicate of `limpar_pontos`,
evaluated on the raw record.) -/
def valido_bruto (tem_quantidade : Bool) (p : Ponto) : Bool :=
  notNull p.latitude && notNull p.longitude && notNull p.descricao &&
  entre (-90) 90 p.latitude && entre (-180) 180 p.longitude &&
  (!tem_quantidade ||
    (quantidade_numerica (coerce_quantidade p) && quantidade_positiva (coerce_quantidade p)))

/-- `processar_excel_coordenadas` (main.py lines 277-372): resolve the
required columns (failing with a message listing the available headers),
optionally resolve a quantity column, clean, fail on an empty result, and
return the records, the capability flag, and the shape tag. -/
def processar_excel_coordenadas (df : DataFrame) :
    Except String (List Ponto × Bool × String) :=
  match encontrar_coluna_obrigatoria df.headers "latitude" with
  | none => Except.error
      ("Coluna 'latitude' não encontrada. Colunas disponíveis: " ++ toString df.headers)
  | some _ =>
    match encontrar_coluna_obrigatoria df.headers "longitude" with
    | none => Except.error
        ("Coluna 'longitude' não encontrada. Colunas disponíveis: " ++ toString df.headers)
    | some _ =>
      match encontrar_coluna_obrigatoria df.headers "descricao" with
      | none => Except.error
          ("Coluna 'descricao' não encontrada. Colunas disponíveis: " ++ toString df.headers)
      | some _ =>
        if limpar_pontos (primeira_correspondencia colunas_opcionais_coordenadas df.headers).isSome
            (pontos_brutos df) = [] then
          Except.error "Nenhuma coordenada válida encontrada no arquivo"
        else
          Except.ok
            (limpar_pontos (primeira_correspondencia colunas_opcionais_coordenadas df.headers).isSome
               (pontos_brutos df),
             (primeira_correspondencia colunas_opcionais_coordenadas df.headers).isSome,
             "coordenadas")

/-! ## Render-strategy selection (main.py lines 816-826)

The mode validation block of `upload_file`: a total function of the
requested mode, the capability flag and the shape tag, returning the
effective mode and an optional warning. -/

/-- The mode-fallback rules of `upload_file` (main.py lines 816-826). -/
def validar_tipo_mapa (tipo_mapa : String) (tem_quantidade : Bool)
    (tipo_dados : String) : String × Option String :=
  if (tipo_mapa == "calor" || tipo_mapa == "circulos") && !tem_quantidade then
    ("tradicional", some "Mapa alterado para tradicional: coluna 'quantidade' não encontrada.")
  else if tipo_mapa == "coropletico"
      && !(tipo_dados == "coroplético" || tipo_dados == "municipios") then
    ("tradicional", some "Mapa alterado para tradicional: dados de estados ou municípios não encontrados.")
  else if tipo_mapa == "municipios" && !(tipo_dados == "municipios") then
    ("tradicional",
     some "Mapa alterado para tradicional: dados de municípios não encontrados. Use colunas 'codigo_ibge' e 'valor'.")
  else (tipo_mapa, none)

/-! ## Builder dispatch (main.py lines 678-702) -/

/-- The five map builders of the source. -/
inductive Builder where
  | tradicional : Builder
  | calor : Builder
  | circulos : Builder
  | coropletico : Builder
  | coropleticoMunicipios : Builder
deriving DecidableEq

/-- The builder-selection branches of `criar_mapa_coordenadas` (main.py
lines 684-702): the data shape is tested first, and only coordinate-shaped
data dispatches on the map type. -/
def escolher_builder (tipo_dados tipo_mapa : String) (tem_quantidade : Bool) :
    Builder :=
  if tipo_dados == "coroplético" then Builder.coropletico
  else if tipo_dados == "municipios" then Builder.coropleticoMunicipios
  else if tipo_mapa == "tradicional" then Builder.tradicional
  else if tipo_mapa == "calor" && tem_quantidade then Builder.calor
  else if tipo_mapa == "circulos" && tem_quantidade then Builder.circulos
  else if tipo_mapa == "coropletico" then Builder.tradicional
  else Builder.tradicional

/-- Modelled from the spec: the builder that corresponds to each effective
mode in the spec's data-flow sentence "MapBuilders[effective mode]"
(spec §2), for comparison with `escolher_builder`. -/
def builderOfMode (m : String) : Builder :=
  if m == "tradicional" then Builder.tradicional
  else if m == "calor" then Builder.calor
  else if m == "circulos" then Builder.circulos
  else if m == "coropletico" then Builder.coropletico
  else Builder.coropleticoMunicipios

/-! ## Proportional-circle math (main.py lines 474-496) -/

/-- `normalizar_raio` (main.py lines 480-484). -/
def normalizar_raio (min_quantidade max_quantidade quantidade : ℚ) : ℚ :=
  if max_quantidade = min_quantidade then 30
  else 10 + (quantidade - min_quantidade) / (max_quantidade - min_quantidade) * 90

/-- `cor_por_quantidade` (main.py lines 487-496).  The source compares the
normalized value against the float literals 0.33 and 0.66, embedded here
as the exact rationals they denote. -/
def cor_por_quantidade (min_quantidade max_quantidade quantidade : ℚ) : String :=
  if max_quantidade = min_quantidade then "blue"
  else
    let normalized := (quantidade - min_quantidade) / (max_quantidade - min_quantidade)
    if normalized < 33/100 then "green"
    else if normalized < 66/100 then "orange"
    else "red"

/-- `ponto.get('quantidade', 1)` as the circles builder reads it: the
numeric quantity, or the default 1 when the key is absent.  (Records
reaching this builder carry numeric quantities; a non-numeric cell is
unreachable and is mapped to the default.) -/
def qtd_de (p : Ponto) : ℚ :=
  match p.quantidade with
  | some (Cell.num q) => q
  | _ => 1

/-- Python `min` over a list (the empty case raises in Python and is
unreachable here: builders only run on non-empty datasets). -/
def listaMin : List ℚ → ℚ
  | [] => 0
  | q :: qs => qs.foldl min q

/-- Python `max` over a list (empty case as in `listaMin`). -/
def listaMax : List ℚ → ℚ
  | [] => 0
  | q :: qs => qs.foldl max q

/-- `quantidades = [ponto.get('quantidade', 1) for ponto in dados]`
(main.py line 475). -/
def quantidades_de (dados : List Ponto) : List ℚ := dados.map qtd_de

/-- The circle radii the circles builder draws, in record order
(main.py lines 499-501). -/
def raios_circulos (dados : List Ponto) : List ℚ :=
  dados.map (fun p =>
    normalizar_raio (listaMin (quantidades_de dados)) (listaMax (quantidades_de dados)) (qtd_de p))

/-- The circle fill colors the circles builder draws, in record order
(main.py lines 499-502). -/
def cores_circulos (dados : List Ponto) : List String :=
  dados.map (fun p =>
    cor_por_quantidade (listaMin (quantidades_de dados)) (listaMax (quantidades_de dados)) (qtd_de p))

/-! ## Boundary geometry and the choropleth builders
(main.py lines 84-125, 528-676) -/

/-- A feature of the states GeoJSON: display name, state code, and polygon
ring. -/
structure EstadoFeature where
  name : String
  sigla : String
  coordinates : List (ℚ × ℚ)
deriving DecidableEq

/-- The states boundary collection. -/
structure GeoJsonEstados where
  features : List EstadoFeature
deriving DecidableEq

/-- A feature of the municipalities GeoJSON: the zero-padded id and the
display name (geometry is irrelevant to every claim). -/
structure MunFeature where
  id : String
  name : String
deriving DecidableEq

/-- The municipalities boundary collection. -/
structure GeoJsonMunicipios where
  features : List MunFeature
deriving DecidableEq

/-- The outcome of an external boundary fetch, as the source observes it:
an HTTP response with a status code and parsed body, or a raised exception
(network error, timeout) with its message. -/
inductive FetchResult (α : Type) where
  | success (status : Nat) (body : α) : FetchResult α
  | failure (msg : String) : FetchResult α
deriving DecidableEq

/-- `criar_geojson_fallback` (main.py lines 107-125): the built-in
two-state collection used when the states fetch fails. -/
def criar_geojson_fallback : GeoJsonEstados :=
  { features :=
      [{ name := "São Paulo", sigla := "SP",
         coordinates := [(-44, -20), (-44, -25), (-48, -25), (-48, -20), (-44, -20)] },
       { name := "Rio de Janeiro", sigla := "RJ",
         coordinates := [(-40, -20), (-40, -24), (-45, -24), (-45, -20), (-40, -20)] }] }

/-- `obter_geojson_estados` (main.py lines 84-94): a 200 response yields
its body; any other status, and any raised exception, yields the built-in
fallback collection — never an error. -/
def obter_geojson_estados : FetchResult GeoJsonEstados → GeoJsonEstados
  | FetchResult.success status body =>
      if status = 200 then body else criar_geojson_fallback
  | FetchResult.failure _ => criar_geojson_fallback

/-- `obter_geojson_municipios` (main.py lines 96-105): a 200 response
yields its body; anything else raises. -/
def obter_geojson_municipios :
    FetchResult GeoJsonMunicipios → Except String GeoJsonMunicipios
  | FetchResult.success status body =>
      if status = 200 then Except.ok body
      else Except.error
        "Erro ao obter GeoJSON dos municípios: Erro ao baixar dados dos municípios"
  | FetchResult.failure msg =>
      Except.error ("Erro ao obter GeoJSON dos municípios: " ++ msg)

/-- Python dict insert: overwrite an existing key in place, else append. -/
def upsert (l : List (String × ℚ)) (k : String) (v : ℚ) : List (String × ℚ) :=
  if l.any (fun p => p.1 == k) then
    l.map (fun p => if p.1 == k then (k, v) else p)
  else l ++ [(k, v)]

/-- The state-builder records as the builder reads them: only the
`estado_normalizado` and `quantidade` fields are accessed (main.py lines
543-547). -/
structure EstadoDado where
  estado_normalizado : String
  quantidade : ℚ
deriving DecidableEq

/-- `dados_dict` of the state choropleth builder (main.py lines 542-547):
state code (via the region table, with uppercase fallback) → quantity. -/
def montar_dados_dict (dados_estados : List EstadoDado) : List (String × ℚ) :=
  dados_estados.foldl
    (fun acc item => upsert acc (sigla_do_estado item.estado_normalizado) item.quantidade) []

/-- The state choropleth artifact, to the extent the claims observe it:
which boundary collection was drawn and the code → quantity data. -/
structure MapaEstados where
  geojson : GeoJsonEstados
  dados_dict : List (String × ℚ)
deriving DecidableEq

/-- `criar_mapa_coropletico` (main.py lines 528-610): obtain the states
geometry (never failing — the fetch falls back), build the data mapping,
and fail only when `min()` over the empty value list raises. -/
def criar_mapa_coropletico (fetch : FetchResult GeoJsonEstados)
    (dados_estados : List EstadoDado) : Except String MapaEstados :=
  let geojson_data := obter_geojson_estados fetch
  let dados_dict := montar_dados_dict dados_estados
  if dados_dict = [] then
    Except.error "Erro ao criar mapa coroplético: min() arg is an empty sequence"
  else Except.ok { geojson := geojson_data, dados_dict := dados_dict }

/-- The municipality-builder records as the builder reads them
(main.py line 626). -/
structure MunDado where
  codigo_ibge : String
  valor : ℚ
deriving DecidableEq

/-- The municipality choropleth artifact, to the extent the claims observe
it. -/
structure MapaMunicipios where
  geojson : GeoJsonMunicipios
  id_to_value : List (String × ℚ)
deriving DecidableEq

/-- `criar_mapa_coropletico_municipios` (main.py lines 612-676): obtain
the municipalities geometry — propagating its failure as an error — then
build the id → value mapping, failing when `min()` over the empty value
list raises. -/
def criar_mapa_coropletico_municipios (fetch : FetchResult GeoJsonMunicipios)
    (dados_municipios : List MunDado) : Except String MapaMunicipios :=
  match obter_geojson_municipios fetch with
  | Except.error e =>
      Except.error ("Erro ao criar mapa coroplético de municípios: " ++ e)
  | Except.ok geojson_data =>
    let id_to_value := dados_municipios.foldl
      (fun acc item => upsert acc (zfill 7 item.codigo_ibge) item.valor) []
    if id_to_value = [] then
      Except.error
        "Erro ao criar mapa coroplético de municípios: min() arg is an empty sequence"
    else Except.ok { geojson := geojson_data, id_to_value := id_to_value }

/-! ## Helper lemmas about the string embedding -/

theorem mem_of_lookup_pares {c v : Char}
    (h : pares_maiusculas.lookup c = some v) : (c, v) ∈ pares_maiusculas := by
  rcases List.lookup_eq_some_iff.mp h with ⟨l1, l2, heq, -⟩
  rw [heq]
  exact List.mem_append_right _ (List.mem_cons_self _ _)

theorem lookup_pares_snd : ∀ p ∈ pares_maiusculas, pares_maiusculas.lookup p.2 = none := by
  decide

theorem pares_not_whitespace :
    ∀ p ∈ pares_maiusculas,
      Char.isWhitespace p.1 = false ∧ Char.isWhitespace p.2 = false := by
  decide

theorem lowerChar_idem (c : Char) : lowerChar (lowerChar c) = lowerChar c := by
  cases h : pares_maiusculas.lookup c with
  | none => simp [lowerChar, h]
  | some v =>
    have h2 := lookup_pares_snd _ (mem_of_lookup_pares h)
    simp [lowerChar, h, h2]

theorem isWhitespace_lowerChar (c : Char) :
    Char.isWhitespace (lowerChar c) = Char.isWhitespace c := by
  cases h : pares_maiusculas.lookup c with
  | none => simp [lowerChar, h]
  | some v =>
    have h2 := pares_not_whitespace _ (mem_of_lookup_pares h)
    simp only [lowerChar, h, Option.getD_some]
    rw [h2.2, h2.1]

theorem map_lowerChar_dropWhile (l : List Char) :
    (l.map lowerChar).dropWhile Char.isWhitespace
      = (l.dropWhile Char.isWhitespace).map lowerChar := by
  rw [List.dropWhile_map]
  have h : (Char.isWhitespace ∘ lowerChar) = Char.isWhitespace :=
    funext isWhitespace_lowerChar
  rw [h]

theorem map_lowerChar_rdropWhile (l : List Char) :
    (l.map lowerChar).rdropWhile Char.isWhitespace
      = (l.rdropWhile Char.isWhitespace).map lowerChar := by
  unfold List.rdropWhile
  rw [← List.map_reverse, map_lowerChar_dropWhile, List.map_reverse]

theorem map_lowerChar_trimList (l : List Char) :
    trimList (l.map lowerChar) = (trimList l).map lowerChar := by
  unfold trimList
  rw [map_lowerChar_dropWhile, map_lowerChar_rdropWhile]

theorem map_lowerChar_idem (l : List Char) :
    (l.map lowerChar).map lowerChar = l.map lowerChar := by
  rw [List.map_map]
  exact List.map_congr_left (fun a _ => lowerChar_idem a)

theorem dropWhile_rdropWhile_dropWhile (p : Char → Bool) (l : List Char) :
    ((l.dropWhile p).rdropWhile p).dropWhile p = (l.dropWhile p).rdropWhile p := by
  cases h : (l.dropWhile p).rdropWhile p with
  | nil => simp
  | cons a t =>
    have hpre : (l.dropWhile p).rdropWhile p <+: l.dropWhile p :=
      List.rdropWhile_prefix p (l.dropWhile p)
    rw [h] at hpre
    obtain ⟨t2, ht2⟩ := hpre
    have hhead : (l.dropWhile p).head? = some a := by
      rw [← ht2]; rfl
    have hpa : p a = false := by
      have hh := List.head?_dropWhile_not p l
      rw [hhead] at hh
      exact hh
    rw [List.dropWhile_cons, hpa]
    simp

theorem trimList_idem (l : List Char) : trimList (trimList l) = trimList l := by
  unfold trimList
  rw [dropWhile_rdropWhile_dropWhile]
  exact List.rdropWhile_idempotent _ _

theorem normList_idem (l : List Char) :
    trimList ((trimList (l.map lowerChar)).map lowerChar)
      = trimList (l.map lowerChar) := by
  have h1 : (trimList (l.map lowerChar)).map lowerChar = trimList (l.map lowerChar) := by
    rw [← map_lowerChar_trimList, map_lowerChar_idem]
  rw [h1, trimList_idem]

theorem normalizar_estado_idem (s : String) :
    normalizar_estado (normalizar_estado s) = normalizar_estado s := by
  show String.mk (trimList ((trimList (s.data.map lowerChar)).map lowerChar))
    = String.mk (trimList (s.data.map lowerChar))
  exact congrArg String.mk (normList_idem s.data)

/-! ## Claim theorems -/

/-- C8 (counterexample): the claim asserts that "São Paulo", "sao paulo"
and " SAO PAULO " all yield the same normalized key; but normalization
(lowercase of trimmed input) does not strip diacritics, so "São Paulo"
normalizes to "são paulo", a different key from "sao paulo". -/
theorem C8_counterexample :
    normalizar_estado "São Paulo" ≠ normalizar_estado "sao paulo" := by decide

/-- C8 (amended): state-name normalization (lowercase then strip) is
idempotent; "São Paulo", "sao paulo" and " SAO PAULO " all resolve to
"SP" via the region-code table (but "São Paulo" yields the distinct key
"são paulo", which the table also maps to "SP"; "sao paulo" and
" SAO PAULO " share one key); a key not present in the table resolves to
its uppercase form instead of failing. -/
theorem C8_state_normalization :
    (∀ s : String, normalizar_estado (normalizar_estado s) = normalizar_estado s) ∧
    (sigla_do_estado (normalizar_estado "São Paulo") = "SP" ∧
     sigla_do_estado (normalizar_estado "sao paulo") = "SP" ∧
     sigla_do_estado (normalizar_estado " SAO PAULO ") = "SP") ∧
    normalizar_estado "sao paulo" = normalizar_estado " SAO PAULO " ∧
    (∀ s : String, ESTADOS_BRASIL.lookup s = none → sigla_do_estado s = upperStr s) := by
  refine ⟨normalizar_estado_idem, ⟨by decide, by decide, by decide⟩, by decide, ?_⟩
  intro s h
  simp [sigla_do_estado, h]

/-- C8 (witness): the fallback branch at the concrete unmatched key
"atlantis". -/
theorem C8_witness : sigla_do_estado "atlantis" = upperStr "atlantis" :=
  C8_state_normalization.2.2.2 "atlantis" (by decide)

theorem any_contains_iff (aliases hs : List String) :
    aliases.any (fun c => (hs.map normalizeHeader).contains c) = true
      ↔ ∃ h ∈ hs, normalizeHeader h ∈ aliases := by
  constructor
  · intro hany
    obtain ⟨c, hc, hcont⟩ := List.any_eq_true.mp hany
    obtain ⟨c', hc', hbeq⟩ := List.contains_iff_exists_mem_beq.mp hcont
    obtain ⟨h, hh, rfl⟩ := List.mem_map.mp hc'
    have : c = normalizeHeader h := by rwa [beq_iff_eq] at hbeq
    exact ⟨h, hh, this ▸ hc⟩
  · rintro ⟨h, hh, hc⟩
    refine List.any_eq_true.mpr ⟨normalizeHeader h, hc, ?_⟩
    exact List.contains_iff_exists_mem_beq.mpr
      ⟨normalizeHeader h, List.mem_map.mpr ⟨h, hh, rfl⟩, by simp⟩

/-- C4 (confirmed): the schema classifier sends any header set containing
a normalized municipality-code alias to the municipality shape, even in
the presence of state aliases; header sets with a state alias but no
municipality alias go to the state shape; all others to coordinates. -/
theorem C4_classifier_precedence :
    (∀ hs : List String, (∃ h ∈ hs, normalizeHeader h ∈ colunas_municipio) →
       classificar hs = TipoDados.municipios) ∧
    (∀ hs : List String, (¬ ∃ h ∈ hs, normalizeHeader h ∈ colunas_municipio) →
       (∃ h ∈ hs, normalizeHeader h ∈ colunas_estado) →
       classificar hs = TipoDados.estados) ∧
    (∀ hs : List String, (¬ ∃ h ∈ hs, normalizeHeader h ∈ colunas_municipio) →
       (¬ ∃ h ∈ hs, normalizeHeader h ∈ colunas_estado) →
       classificar hs = TipoDados.coordenadas) := by
  refine ⟨?_, ?_, ?_⟩ <;> intro hs
  · intro h
    have hm : tem_coluna_municipio hs = true := (any_contains_iff _ hs).mpr h
    simp [classificar, hm]
  · intro hm he
    have h1 : tem_coluna_municipio hs = false :=
      Bool.eq_false_iff.mpr (fun hc => hm ((any_contains_iff _ hs).mp hc))
    have h2 : tem_coluna_estado hs = true := (any_contains_iff _ hs).mpr he
    simp [classificar, h1, h2]
  · intro hm he
    have h1 : tem_coluna_municipio hs = false :=
      Bool.eq_false_iff.mpr (fun hc => hm ((any_contains_iff _ hs).mp hc))
    have h2 : tem_coluna_estado hs = false :=
      Bool.eq_false_iff.mpr (fun hc => he ((any_contains_iff _ hs).mp hc))
    simp [classificar, h1, h2]

/-- C4 (witness): concrete classifications — a sheet with both a
municipality-code alias and a state alias classifies as municipalities
(precedence), a state-only sheet as states, a coordinate sheet as
coordinates. -/
theorem C4_witness :
    classificar ["estado", "codigo_ibge"] = TipoDados.municipios ∧
    classificar ["Estado", "quantidade"] = TipoDados.estados ∧
    classificar ["latitude", "longitude", "descricao"] = TipoDados.coordenadas :=
  ⟨C4_classifier_precedence.1 _ (by decide),
   C4_classifier_precedence.2.1 _ (by decide) (by decide),
   C4_classifier_precedence.2.2 _ (by decide) (by decide)⟩

/-- C5 (confirmed): the mode-fallback block is a total function of
(requested mode, shape, capability) — `validar_tipo_mapa` is a Lean
function, hence total and deterministic — and resolves the three quoted
instances as the claim states: Heat on quantity-less coordinates falls
back to Traditional with a warning, Circles with quantity passes through
with no warning, and Municipalities mode on state-shaped data falls back
to Traditional with a warning for either capability value. -/
theorem C5_selector_resolution :
    ((validar_tipo_mapa "calor" false "coordenadas").1 = "tradicional" ∧
     ((validar_tipo_mapa "calor" false "coordenadas").2).isSome = true) ∧
    validar_tipo_mapa "circulos" true "coordenadas" = ("circulos", none) ∧
    (∀ q : Bool, (validar_tipo_mapa "municipios" q "coroplético").1 = "tradicional" ∧
      ((validar_tipo_mapa "municipios" q "coroplético").2).isSome = true) := by
  decide

theorem primeira_correspondencia_eq_none {aliases hs : List String} :
    primeira_correspondencia aliases hs = none
      ↔ ∀ a ∈ aliases, ∀ h ∈ hs, lowerStr h ≠ a := by
  simp [primeira_correspondencia, List.findSome?_eq_none_iff, List.find?_eq_none]

theorem primeira_correspondencia_eq_some {aliases hs : List String} {h : String}
    (hf : primeira_correspondencia aliases hs = some h) :
    h ∈ hs ∧ lowerStr h ∈ aliases := by
  rcases List.findSome?_eq_some_iff.mp hf with ⟨l1, a, l2, hsplit, hfind, -⟩
  have hmem := List.mem_of_find?_eq_some hfind
  have hpred := List.find?_some hfind
  have ha : a ∈ aliases := by
    rw [hsplit]; exact List.mem_append_right _ (List.mem_cons_self _ _)
  refine ⟨hmem, ?_⟩
  have : lowerStr h = a := by simpa using hpred
  rw [this]; exact ha

/-- C2 (counterexample): column matching does not implement the claimed
rule.  The municipality-code matcher scans headers in column order, so
with headers `["ibge", "codigo_ibge"]` it returns `"ibge"` although the
first alias `codigo_ibge` matches the header `"codigo_ibge"`; the
municipality value matcher also scans headers in column order, so with
headers `["quantidade", "valor"]` it returns `"quantidade"` although the
first alias `valor` matches the header `"valor"`; and the state matcher
compares only the lowercased header, so the header `"Estado_"` (whose
stripped form is the alias `estado`) is not found at all. -/
theorem C2_counterexample :
    (encontrar_col_codigo ["ibge", "codigo_ibge"] = some "ibge" ∧
     matchColumnSpec ["ibge", "codigo_ibge"]
       ["codigo_ibge", "ibge", "codigo", "id_municipio", "cod_ibge"] = some "codigo_ibge") ∧
    (encontrar_col_valor ["quantidade", "valor"] = some "quantidade" ∧
     matchColumnSpec ["quantidade", "valor"] colunas_valor_municipios = some "valor") ∧
    (primeira_correspondencia colunas_estado ["Estado_"] = none ∧
     matchColumnSpec ["Estado_"] colunas_estado = some "Estado_") := by
  decide

/-- C2 (amended): the matchers never fail — absence is signaled by
returning nothing — and each returns a header of the input whose
(respective) normalized form is an accepted alias; but the two
municipality-pipeline matchers (IBGE code and value) scan headers in
original column order and return the first header matching any alias,
alias priority not being honored (the code matcher compares the
lowercased, underscore/space-stripped header, the value matcher only the
lowercased header), while the state-, quantity- and coordinates-pipeline
matchers try aliases in priority order — a required coordinates column
first by its canonical name, then through its alternative names — but
compare only the lowercased header, without stripping whitespace or
underscores. -/
theorem C2_matchers_characterization :
    (∀ hs : List String, encontrar_col_codigo hs = none
       ↔ ∀ h ∈ hs, normalizeHeader h ∉ colunas_municipio) ∧
    (∀ (hs : List String) (h : String), encontrar_col_codigo hs = some h →
       h ∈ hs ∧ normalizeHeader h ∈ colunas_municipio) ∧
    (∀ (hs : List String) (h : String), h ∈ hs → normalizeHeader h ∈ colunas_municipio →
       (encontrar_col_codigo hs).isSome = true) ∧
    (∀ hs : List String, encontrar_col_valor hs = none
       ↔ ∀ h ∈ hs, lowerStr h ∉ colunas_valor_municipios) ∧
    (∀ (hs : List String) (h : String), encontrar_col_valor hs = some h →
       h ∈ hs ∧ lowerStr h ∈ colunas_valor_municipios) ∧
    (∀ (hs : List String) (h : String), h ∈ hs → lowerStr h ∈ colunas_valor_municipios →
       (encontrar_col_valor hs).isSome = true) ∧
    (∀ aliases hs : List String, primeira_correspondencia aliases hs = none
       ↔ ∀ a ∈ aliases, ∀ h ∈ hs, lowerStr h ≠ a) ∧
    (∀ (aliases hs : List String) (h : String),
       primeira_correspondencia aliases hs = some h →
       h ∈ hs ∧ lowerStr h ∈ aliases) ∧
    (∀ (hs : List String) (c h : String), encontrar_coluna_obrigatoria hs c = some h →
       h ∈ hs ∧ (lowerStr h = c ∨ lowerStr h ∈ alternativas_de c)) ∧
    (∀ (hs : List String) (c : String), encontrar_coluna_obrigatoria hs c = none
       ↔ (∀ h ∈ hs, lowerStr h ≠ c) ∧
         (∀ a ∈ alternativas_de c, ∀ h ∈ hs, lowerStr h ≠ a)) := by
  refine ⟨?_, ?_, ?_, ?_, ?_, ?_, ?_, ?_, ?_, ?_⟩
  · intro hs
    simp [encontrar_col_codigo, List.find?_eq_none]
  · intro hs h hf
    refine ⟨List.mem_of_find?_eq_some hf, ?_⟩
    have := List.find?_some hf
    simpa using this
  · intro hs h hmem hal
    cases hs' : encontrar_col_codigo hs with
    | some _ => rfl
    | none =>
      exact absurd hal (by
        have := (by simpa [encontrar_col_codigo, List.find?_eq_none] using hs' :
          ∀ x ∈ hs, normalizeHeader x ∉ colunas_municipio)
        exact this h hmem)
  · intro hs
    simp [encontrar_col_valor, List.find?_eq_none]
  · intro hs h hf
    refine ⟨List.mem_of_find?_eq_some hf, ?_⟩
    have := List.find?_some hf
    simpa using this
  · intro hs h hmem hal
    cases hs' : encontrar_col_valor hs with
    | some _ => rfl
    | none =>
      exact absurd hal (by
        have := (by simpa [encontrar_col_valor, List.find?_eq_none] using hs' :
          ∀ x ∈ hs, lowerStr x ∉ colunas_valor_municipios)
        exact this h hmem)
  · intro aliases hs
    exact primeira_correspondencia_eq_none
  · intro aliases hs h hf
    exact primeira_correspondencia_eq_some hf
  · intro hs c h hf
    unfold encontrar_coluna_obrigatoria at hf
    cases hx : hs.find? (fun x => lowerStr x == c) with
    | some c' =>
      simp only [hx] at hf
      cases hf
      have hm := List.mem_of_find?_eq_some hx
      have hp := List.find?_some hx
      exact ⟨hm, Or.inl (by simpa using hp)⟩
    | none =>
      simp only [hx] at hf
      obtain ⟨hm, ha⟩ := primeira_correspondencia_eq_some hf
      exact ⟨hm, Or.inr ha⟩
  · intro hs c
    unfold encontrar_coluna_obrigatoria
    cases hx : hs.find? (fun x => lowerStr x == c) with
    | some c' =>
      simp only [hx]
      have hm := List.mem_of_find?_eq_some hx
      have hp : lowerStr c' = c := by simpa using List.find?_some hx
      constructor
      · intro hcon
        exact absurd hcon (Option.some_ne_none _)
      · rintro ⟨hA, -⟩
        exact absurd hp (hA c' hm)
    | none =>
      simp only [hx]
      rw [primeira_correspondencia_eq_none]
      have hA : ∀ h ∈ hs, lowerStr h ≠ c := by
        intro h hm
        have := List.find?_eq_none.mp hx h hm
        simpa using this
      constructor
      · intro hB; exact ⟨hA, hB⟩
      · rintro ⟨-, hB⟩; exact hB

/-- C2 (witness): concrete instantiations of the matcher
characterization, one per matcher family — the municipality code and
value matchers, the alias-priority matcher on the state aliases, and the
required-coordinates-column matcher resolving `latitude` through its
alternative name `lat`. -/
theorem C2_witness :
    ("Codigo" ∈ ["x", "Codigo"] ∧ normalizeHeader "Codigo" ∈ colunas_municipio) ∧
    (encontrar_col_codigo ["x", "Codigo"]).isSome = true ∧
    ("Peso" ∈ ["x", "Peso"] ∧ lowerStr "Peso" ∈ colunas_valor_municipios) ∧
    (encontrar_col_valor ["x", "Peso"]).isSome = true ∧
    ("UF" ∈ ["x", "UF"] ∧ lowerStr "UF" ∈ colunas_estado) ∧
    ("Lat" ∈ ["Lat", "y"] ∧
      (lowerStr "Lat" = "latitude" ∨ lowerStr "Lat" ∈ alternativas_de "latitude")) :=
  ⟨C2_matchers_characterization.2.1 ["x", "Codigo"] "Codigo" (by decide),
   C2_matchers_characterization.2.2.1 ["x", "Codigo"] "Codigo" (by decide) (by decide),
   C2_matchers_characterization.2.2.2.2.1 ["x", "Peso"] "Peso" (by decide),
   C2_matchers_characterization.2.2.2.2.2.1 ["x", "Peso"] "Peso" (by decide) (by decide),
   C2_matchers_characterization.2.2.2.2.2.2.2.1 colunas_estado ["x", "UF"] "UF" (by decide),
   C2_matchers_characterization.2.2.2.2.2.2.2.2.1 ["Lat", "y"] "latitude" "Lat" (by decide)⟩

/-- C3 (counterexample): with state-shaped data, capability true and
requested mode Heat, the selector resolves the effective mode to Heat
with no warning, yet the builder dispatch runs the state choropleth
builder, not the heat builder corresponding to the effective mode. -/
theorem C3_counterexample :
    validar_tipo_mapa "calor" true "coroplético" = ("calor", none) ∧
    escolher_builder "coroplético" "calor" true = Builder.coropletico ∧
    builderOfMode "calor" = Builder.calor ∧
    escolher_builder "coroplético" "calor" true ≠ builderOfMode "calor" := by
  decide

/-- C3 (amended): the dispatch in `criar_mapa_coordenadas` branches on the
data shape first: state-shaped data always gets the state choropleth
builder and municipality-shaped data the municipality builder, whatever
the effective mode; only for coordinate-shaped data does the builder
agree with the effective mode resolved by the selector. -/
theorem C3_dispatch_shape_first :
    (∀ (m : String) (q : Bool), escolher_builder "coroplético" m q = Builder.coropletico) ∧
    (∀ (m : String) (q : Bool),
       escolher_builder "municipios" m q = Builder.coropleticoMunicipios) ∧
    (∀ (m : String) (q : Bool),
       m ∈ ["tradicional", "calor", "circulos", "coropletico", "municipios"] →
       escolher_builder "coordenadas" (validar_tipo_mapa m q "coordenadas").1 q
         = builderOfMode (validar_tipo_mapa m q "coordenadas").1) := by
  refine ⟨?_, ?_, ?_⟩
  · intro m q; simp [escolher_builder]
  · intro m q; simp [escolher_builder]
  · intro m q hm
    simp only [List.mem_cons, List.not_mem_nil, or_false] at hm
    rcases hm with rfl | rfl | rfl | rfl | rfl <;> cases q <;> decide

/-- C3 (witness): concrete instantiations of the amended dispatch law. -/
theorem C3_witness :
    escolher_builder "coroplético" "tradicional" true = Builder.coropletico ∧
    escolher_builder "coordenadas" (validar_tipo_mapa "calor" true "coordenadas").1 true
      = builderOfMode (validar_tipo_mapa "calor" true "coordenadas").1 :=
  ⟨C3_dispatch_shape_first.1 "tradicional" true,
   C3_dispatch_shape_first.2.2 "calor" true (by decide)⟩

/-- C10 (confirmed): whenever the municipality or state pipeline
succeeds, the returned capability flag is the constant `true` — so the
selector's rule downgrading Heat/Circles for a missing quantity cannot
fire on data of these shapes: with the returned flag and shape tag, Heat
and Circles requests pass through the selector unchanged and
unwarned. -/
theorem C10_quantity_flag :
    (∀ (df : DataFrame) d (q : Bool) (t : String),
       processar_excel_municipios df = Except.ok (d, q, t) →
       q = true ∧ validar_tipo_mapa "calor" q t = ("calor", none) ∧
         validar_tipo_mapa "circulos" q t = ("circulos", none)) ∧
    (∀ (df : DataFrame) d (q : Bool) (t : String),
       processar_excel_estados df = Except.ok (d, q, t) →
       q = true ∧ validar_tipo_mapa "calor" q t = ("calor", none) ∧
         validar_tipo_mapa "circulos" q t = ("circulos", none)) := by
  constructor
  · intro df d q t h
    unfold processar_excel_municipios at h
    split at h
    · exact absurd h (by simp)
    · split at h
      · exact absurd h (by simp)
      · split at h
        · exact absurd h (by simp)
        · simp only [Except.ok.injEq, Prod.mk.injEq] at h
          obtain ⟨-, hq, ht⟩ := h
          subst hq; subst ht
          exact ⟨rfl, by decide, by decide⟩
  · intro df d q t h
    unfold processar_excel_estados at h
    split at h
    · exact absurd h (by simp)
    · split at h
      · exact absurd h (by simp)
      · split at h
        · exact absurd h (by simp)
        · simp only [Except.ok.injEq, Prod.mk.injEq] at h
          obtain ⟨-, hq, ht⟩ := h
          subst hq; subst ht
          exact ⟨rfl, by decide, by decide⟩

/-- C10 (witness): the flag and pass-through law at concrete successful
runs of both pipelines. -/
theorem C10_witness :
    (true = true ∧ validar_tipo_mapa "calor" true "municipios" = ("calor", none) ∧
      validar_tipo_mapa "circulos" true "municipios" = ("circulos", none)) ∧
    (true = true ∧ validar_tipo_mapa "calor" true "coroplético" = ("calor", none) ∧
      validar_tipo_mapa "circulos" true "coroplético" = ("circulos", none)) :=
  ⟨C10_quantity_flag.1
     (DataFrame.mk ["codigo_ibge", "valor"] [[Cell.str "3550308", Cell.num 100]])
     [MunRecord.mk "3550308" (Cell.num 100)] true "municipios" (by decide),
   C10_quantity_flag.2
     (DataFrame.mk ["estado", "quantidade"] [[Cell.str "São Paulo", Cell.num 5]])
     [EstRecord.mk (Cell.str "São Paulo") (Cell.num 5) (Cell.str "são paulo")]
     true "coroplético" (by decide)⟩

/-- C1 (counterexample): a state-choropleth build whose boundary fetch
raised returns a successful artifact rendered from the built-in two-state
fallback geometry — it does not fail. -/
theorem C1_counterexample :
    criar_mapa_coropletico (FetchResult.failure "connection error")
        [EstadoDado.mk "são paulo" 5]
      = Except.ok { geojson := criar_geojson_fallback, dados_dict := [("SP", 5)] } := by
  decide

/-- C1 (amended): only the municipality-choropleth builder fails cleanly
when the boundary source is unreachable or returns a non-200 status; the
state-choropleth builder instead silently substitutes the built-in
fallback geometry and succeeds (on any non-empty dataset). -/
theorem C1_boundary_failure :
    (∀ (msg : String) (dados : List MunDado),
       criar_mapa_coropletico_municipios (FetchResult.failure msg) dados
         = Except.error
           ("Erro ao criar mapa coroplético de municípios: Erro ao obter GeoJSON dos municípios: "
             ++ msg)) ∧
    (∀ (status : Nat) (body : GeoJsonMunicipios) (dados : List MunDado), status ≠ 200 →
       criar_mapa_coropletico_municipios (FetchResult.success status body) dados
         = Except.error
           "Erro ao criar mapa coroplético de municípios: Erro ao obter GeoJSON dos municípios: Erro ao baixar dados dos municípios") ∧
    (∀ (msg : String) (dados : List EstadoDado), montar_dados_dict dados ≠ [] →
       criar_mapa_coropletico (FetchResult.failure msg) dados
         = Except.ok { geojson := criar_geojson_fallback,
                       dados_dict := montar_dados_dict dados }) ∧
    (∀ (status : Nat) (body : GeoJsonEstados) (dados : List EstadoDado),
       status ≠ 200 → montar_dados_dict dados ≠ [] →
       criar_mapa_coropletico (FetchResult.success status body) dados
         = Except.ok { geojson := criar_geojson_fallback,
                       dados_dict := montar_dados_dict dados }) := by
  refine ⟨?_, ?_, ?_, ?_⟩
  · intro msg dados
    rfl
  · intro status body dados hst
    simp [criar_mapa_coropletico_municipios, obter_geojson_municipios, hst]
  · intro msg dados hne
    simp [criar_mapa_coropletico, obter_geojson_estados, hne]
  · intro status body dados hst hne
    simp [criar_mapa_coropletico, obter_geojson_estados, hst, hne]

/-- C1 (witness): the amended behaviour at concrete inputs — a 404 on the
municipalities fetch fails the municipality build; an unreachable states
fetch still succeeds with the fallback geometry. -/
theorem C1_witness :
    criar_mapa_coropletico_municipios
        (FetchResult.success 404 (GeoJsonMunicipios.mk [])) [MunDado.mk "3550308" 100]
      = Except.error
        "Erro ao criar mapa coroplético de municípios: Erro ao obter GeoJSON dos municípios: Erro ao baixar dados dos municípios" ∧
    criar_mapa_coropletico (FetchResult.failure "timeout") [EstadoDado.mk "bahia" 7]
      = Except.ok { geojson := criar_geojson_fallback,
                    dados_dict := montar_dados_dict [EstadoDado.mk "bahia" 7] } :=
  ⟨C1_boundary_failure.2.1 404 (GeoJsonMunicipios.mk []) [MunDado.mk "3550308" 100]
     (by decide),
   C1_boundary_failure.2.2.1 "timeout" [EstadoDado.mk "bahia" 7] (by decide)⟩

/-- C7 (confirmed): in the proportional-circle builder, when the dataset
minimum and maximum differ, the radius is `10 + 90·(q - min)/(max - min)`
and the color buckets are green below 0.33, orange below 0.66, red
otherwise; in the degenerate case `max = min` the radius is the constant
30 and the color "blue"; quantities [10, 20, 30] yield radii
[10, 55, 100] and constant quantities [5, 5, 5] yield radius 30 and color
"blue" throughout. -/
theorem C7_circle_normalization :
    (∀ mn mx q : ℚ, mx ≠ mn →
       normalizar_raio mn mx q = 10 + 90 * ((q - mn) / (mx - mn))) ∧
    (∀ mn mx q : ℚ, mx ≠ mn →
       ((q - mn) / (mx - mn) < 33/100 → cor_por_quantidade mn mx q = "green") ∧
       (¬ (q - mn) / (mx - mn) < 33/100 → (q - mn) / (mx - mn) < 66/100 →
          cor_por_quantidade mn mx q = "orange") ∧
       (¬ (q - mn) / (mx - mn) < 66/100 → cor_por_quantidade mn mx q = "red")) ∧
    (∀ mn q : ℚ, normalizar_raio mn mn q = 30 ∧ cor_por_quantidade mn mn q = "blue") ∧
    raios_circulos
        [Ponto.mk (Cell.num 0) (Cell.num 0) (Cell.str "a") (some (Cell.num 10)),
         Ponto.mk (Cell.num 0) (Cell.num 0) (Cell.str "b") (some (Cell.num 20)),
         Ponto.mk (Cell.num 0) (Cell.num 0) (Cell.str "c") (some (Cell.num 30))]
      = [10, 55, 100] ∧
    raios_circulos
        [Ponto.mk (Cell.num 0) (Cell.num 0) (Cell.str "a") (some (Cell.num 5)),
         Ponto.mk (Cell.num 0) (Cell.num 0) (Cell.str "b") (some (Cell.num 5)),
         Ponto.mk (Cell.num 0) (Cell.num 0) (Cell.str "c") (some (Cell.num 5))]
      = [30, 30, 30] ∧
    cores_circulos
        [Ponto.mk (Cell.num 0) (Cell.num 0) (Cell.str "a") (some (Cell.num 5)),
         Ponto.mk (Cell.num 0) (Cell.num 0) (Cell.str "b") (some (Cell.num 5)),
         Ponto.mk (Cell.num 0) (Cell.num 0) (Cell.str "c") (some (Cell.num 5))]
      = ["blue", "blue", "blue"] := by
  refine ⟨?_, ?_, ?_, ?_, ?_, ?_⟩
  case refine_4 =>
    simp only [raios_circulos, quantidades_de, qtd_de, listaMin, listaMax,
      normalizar_raio, List.map_cons, List.map_nil, List.foldl_cons, List.foldl_nil]
    norm_num [min_def, max_def]
  case refine_5 =>
    simp only [raios_circulos, quantidades_de, qtd_de, listaMin, listaMax,
      normalizar_raio, List.map_cons, List.map_nil, List.foldl_cons, List.foldl_nil]
    norm_num [min_def, max_def]
  case refine_6 =>
    simp only [cores_circulos, quantidades_de, qtd_de, listaMin, listaMax,
      cor_por_quantidade, List.map_cons, List.map_nil, List.foldl_cons, List.foldl_nil]
    norm_num [min_def, max_def]
  · intro mn mx q hne
    rw [normalizar_raio, if_neg (fun h => hne h)]
    ring
  · intro mn mx q hne
    refine ⟨?_, ?_, ?_⟩
    · intro h1
      rw [cor_por_quantidade, if_neg (fun h => hne h)]
      simp only [h1, if_true]
    · intro h1 h2
      rw [cor_por_quantidade, if_neg (fun h => hne h)]
      simp only [if_neg h1, h2, if_true]
    · intro h2
      have h1 : ¬ (q - mn) / (mx - mn) < 33/100 := by
        intro hc; exact h2 (hc.trans (by norm_num))
      rw [cor_por_quantidade, if_neg (fun h => hne h)]
      simp only [if_neg h1, if_neg h2]
  · intro mn q
    constructor
    · rw [normalizar_raio, if_pos rfl]
    · rw [cor_por_quantidade, if_pos rfl]

/-- C7 (witness): the radius formula and the green bucket at concrete
quantities (min 10, max 30). -/
theorem C7_witness :
    normalizar_raio 10 30 20 = 10 + 90 * ((20 - 10) / (30 - 10)) ∧
    cor_por_quantidade 10 30 12 = "green" :=
  ⟨C7_circle_normalization.1 10 30 20 (by norm_num),
   (C7_circle_normalization.2.1 10 30 12 (by norm_num)).1 (by norm_num)⟩

theorem entre_eq_true {lo hi : ℚ} {c : Cell} (h : entre lo hi c = true) :
    ∃ q, c = Cell.num q ∧ lo ≤ q ∧ q ≤ hi := by
  cases c with
  | num q => exact ⟨q, rfl, by simpa [entre] using h⟩
  | null => simp [entre] at h
  | str s => simp [entre] at h

theorem notNull_ne_null {c : Cell} (h : notNull c = true) : c ≠ Cell.null := by
  cases c <;> simp_all [notNull]

theorem quantidade_positiva_spec {p : Ponto} (h : quantidade_positiva p = true) :
    ∃ qq, p.quantidade = some (Cell.num qq) ∧ 0 < qq := by
  cases hq : p.quantidade with
  | none => simp [quantidade_positiva, hq] at h
  | some c =>
    cases c with
    | num q => exact ⟨q, rfl, by simpa [quantidade_positiva, hq] using h⟩
    | null => simp [quantidade_positiva, hq] at h
    | str s => simp [quantidade_positiva, hq] at h

theorem limpar_pontos_sound {tq : Bool} {pts : List Ponto} {p : Ponto}
    (hp : p ∈ limpar_pontos tq pts) :
    (∃ la, p.latitude = Cell.num la ∧ -90 ≤ la ∧ la ≤ 90) ∧
    (∃ lo, p.longitude = Cell.num lo ∧ -180 ≤ lo ∧ lo ≤ 180) ∧
    p.descricao ≠ Cell.null ∧
    (tq = true → ∃ qq, p.quantidade = some (Cell.num qq) ∧ 0 < qq) := by
  cases tq with
  | false =>
    simp only [limpar_pontos, Bool.false_eq_true, if_false] at hp
    obtain ⟨hmem1, hc2⟩ := List.mem_filter.mp hp
    obtain ⟨-, hc1⟩ := List.mem_filter.mp hmem1
    simp only [Bool.and_eq_true] at hc1 hc2
    exact ⟨entre_eq_true hc2.1, entre_eq_true hc2.2,
      notNull_ne_null hc1.2, fun hft => absurd hft (by simp)⟩
  | true =>
    simp only [limpar_pontos, if_true] at hp
    obtain ⟨hmem3, hpos⟩ := List.mem_filter.mp hp
    obtain ⟨hmem4, -⟩ := List.mem_filter.mp hmem3
    obtain ⟨p', hp', hcoe⟩ := List.mem_map.mp hmem4
    obtain ⟨hmem5, hc2⟩ := List.mem_filter.mp hp'
    obtain ⟨-, hc1⟩ := List.mem_filter.mp hmem5
    subst hcoe
    simp only [Bool.and_eq_true] at hc1 hc2
    exact ⟨entre_eq_true hc2.1, entre_eq_true hc2.2,
      notNull_ne_null hc1.2, fun _ => quantidade_positiva_spec hpos⟩

theorem valido_bruto_of_sound {tq : Bool} {p0 : Ponto}
    (hlat : ∃ la, p0.latitude = Cell.num la ∧ -90 ≤ la ∧ la ≤ 90)
    (hlon : ∃ lo, p0.longitude = Cell.num lo ∧ -180 ≤ lo ∧ lo ≤ 180)
    (hdesc : p0.descricao ≠ Cell.null)
    (hq : tq = true → ∃ qq, (coerce_quantidade p0).quantidade = some (Cell.num qq) ∧ 0 < qq) :
    valido_bruto tq p0 = true := by
  obtain ⟨la, hla, hla1, hla2⟩ := hlat
  obtain ⟨lo, hlo, hlo1, hlo2⟩ := hlon
  have h1 : notNull p0.latitude = true := by rw [hla]; rfl
  have h2 : notNull p0.longitude = true := by rw [hlo]; rfl
  have h3 : notNull p0.descricao = true := by
    cases hd : p0.descricao with
    | null => exact absurd hd hdesc
    | num q => rfl
    | str s => rfl
  have h4 : entre (-90) 90 p0.latitude = true := by
    rw [hla]; simp [entre, hla1, hla2]
  have h5 : entre (-180) 180 p0.longitude = true := by
    rw [hlo]; simp [entre, hlo1, hlo2]
  cases tq with
  | false => simp [valido_bruto, h1, h2, h3, h4, h5]
  | true =>
    obtain ⟨qq, hqq, hqq0⟩ := hq rfl
    have h6 : quantidade_numerica (coerce_quantidade p0) = true := by
      simp [quantidade_numerica, hqq]
    have h7 : quantidade_positiva (coerce_quantidade p0) = true := by
      simp [quantidade_positiva, hqq, hqq0]
    simp [valido_bruto, h1, h2, h3, h4, h5, h6, h7]

theorem limpar_pontos_absence {tq : Bool} {pts : List Ponto} {p0 : Ponto}
    (h : valido_bruto tq p0 = false) :
    (tq = true → coerce_quantidade p0 ∉ limpar_pontos tq pts) ∧
    (tq = false → p0 ∉ limpar_pontos tq pts) := by
  constructor
  · intro htq hmem
    subst htq
    obtain ⟨hlat, hlon, hdesc, hqv⟩ := limpar_pontos_sound hmem
    have := @valido_bruto_of_sound true p0 hlat hlon hdesc
      (fun _ => by
        obtain ⟨qq, hqq, hqq0⟩ := hqv rfl
        have : coerce_quantidade (coerce_quantidade p0) = coerce_quantidade p0 := by
          cases hc : p0.quantidade with
          | none => simp [coerce_quantidade, hc]
          | some c => cases c <;> simp [coerce_quantidade, to_numeric, hc]
        exact ⟨qq, by rw [← this] at hqq ⊢; exact hqq, hqq0⟩)
    rw [this] at h
    exact absurd h (by simp)
  · intro htq hmem
    subst htq
    obtain ⟨hlat, hlon, hdesc, -⟩ := limpar_pontos_sound hmem
    have := @valido_bruto_of_sound false p0 hlat hlon hdesc
      (fun hft => absurd hft (by simp))
    rw [this] at h
    exact absurd h (by simp)

/-- C6 (confirmed): whenever the coordinates pipeline succeeds, every
output record has a numeric latitude in [-90, 90], a numeric longitude in
[-180, 180], a non-null description, and — when a quantity column was
resolved (the returned flag) — a numeric quantity strictly greater than
zero; and every raw input row violating any of those conditions is absent
from the output. -/
theorem C6_coordinates_validation :
    ∀ (df : DataFrame) (d : List Ponto) (q : Bool) (t : String),
      processar_excel_coordenadas df = Except.ok (d, q, t) →
      (∀ p ∈ d,
        (∃ la, p.latitude = Cell.num la ∧ -90 ≤ la ∧ la ≤ 90) ∧
        (∃ lo, p.longitude = Cell.num lo ∧ -180 ≤ lo ∧ lo ≤ 180) ∧
        p.descricao ≠ Cell.null ∧
        (q = true → ∃ qq, p.quantidade = some (Cell.num qq) ∧ 0 < qq)) ∧
      (∀ p0 ∈ pontos_brutos df, valido_bruto q p0 = false →
        (q = true → coerce_quantidade p0 ∉ d) ∧ (q = false → p0 ∉ d)) := by
  intro df d q t h
  unfold processar_excel_coordenadas at h
  split at h
  · exact absurd h (by simp)
  · split at h
    · exact absurd h (by simp)
    · split at h
      · exact absurd h (by simp)
      · split at h
        · exact absurd h (by simp)
        · simp only [Except.ok.injEq, Prod.mk.injEq] at h
          obtain ⟨hd, hq, -⟩ := h
          subst hd; subst hq
          exact ⟨fun p hp => limpar_pontos_sound hp,
            fun p0 _ hv => limpar_pontos_absence hv⟩

/-- C6 (witness): a concrete run — the surviving row satisfies all the
bounds; the row with latitude 200 is absent from the output. -/
theorem C6_witness :
    ((∃ la, Cell.num (10 : ℚ) = Cell.num la ∧ -90 ≤ la ∧ la ≤ 90) ∧
     (∃ lo, Cell.num (20 : ℚ) = Cell.num lo ∧ -180 ≤ lo ∧ lo ≤ 180) ∧
     Cell.str "A" ≠ Cell.null ∧
     (true = true → ∃ qq, some (Cell.num (5 : ℚ)) = some (Cell.num qq) ∧ 0 < qq)) ∧
    coerce_quantidade
        (Ponto.mk (Cell.num 200) (Cell.num 20) (Cell.str "B") (some (Cell.num 5)))
      ∉ [Ponto.mk (Cell.num 10) (Cell.num 20) (Cell.str "A") (some (Cell.num 5))] :=
  have h := C6_coordinates_validation
    (DataFrame.mk ["latitude", "longitude", "descricao", "quantidade"]
      [[Cell.num 10, Cell.num 20, Cell.str "A", Cell.num 5],
       [Cell.num 200, Cell.num 20, Cell.str "B", Cell.num 5]])
    [Ponto.mk (Cell.num 10) (Cell.num 20) (Cell.str "A") (some (Cell.num 5))]
    true "coordenadas" (by decide)
  ⟨h.1 (Ponto.mk (Cell.num 10) (Cell.num 20) (Cell.str "A") (some (Cell.num 5))) (by decide),
   (h.2 (Ponto.mk (Cell.num 200) (Cell.num 20) (Cell.str "B") (some (Cell.num 5)))
      (by decide) (by decide)).1 rfl⟩

/-- C9 (confirmed): in each of the three pipelines, when the resolved
columns exist but zero rows survive the cleaning steps, the pipeline
fails with the empty-dataset error instead of returning an empty
dataset. -/
theorem C9_empty_after_cleaning :
    (∀ df : DataFrame,
       (encontrar_coluna_obrigatoria df.headers "latitude").isSome = true →
       (encontrar_coluna_obrigatoria df.headers "longitude").isSome = true →
       (encontrar_coluna_obrigatoria df.headers "descricao").isSome = true →
       limpar_pontos (primeira_correspondencia colunas_opcionais_coordenadas df.headers).isSome
         (pontos_brutos df) = [] →
       processar_excel_coordenadas df
         = Except.error "Nenhuma coordenada válida encontrada no arquivo") ∧
    (∀ (df : DataFrame) (cc cv : String),
       encontrar_col_codigo df.headers = some cc →
       encontrar_col_valor df.headers = some cv →
       limpar_municipios (df.rows.map (fun r => (df.get r cc, df.get r cv))) = [] →
       processar_excel_municipios df
         = Except.error "Nenhum dado válido encontrado para mapa coroplético de municípios") ∧
    (∀ (df : DataFrame) (ce cq : String),
       primeira_correspondencia colunas_estado df.headers = some ce →
       primeira_correspondencia colunas_opcionais_estados df.headers = some cq →
       limpar_estados (df.rows.map (fun r => (df.get r ce, df.get r cq))) = [] →
       processar_excel_estados df
         = Except.error "Nenhum dado válido encontrado para mapa coroplético") := by
  refine ⟨?_, ?_, ?_⟩
  · intro df h1 h2 h3 hclean
    rw [Option.isSome_iff_exists] at h1 h2 h3
    obtain ⟨c1, hc1⟩ := h1
    obtain ⟨c2, hc2⟩ := h2
    obtain ⟨c3, hc3⟩ := h3
    simp [processar_excel_coordenadas, hc1, hc2, hc3, hclean]
  · intro df cc cv hcc hcv hclean
    simp [processar_excel_municipios, hcc, hcv, hclean]
  · intro df ce cq hce hcq hclean
    simp [processar_excel_estados, hce, hcq, hclean]

/-- C9 (witness): the concrete empty-after-filtering scenario — a
coordinates sheet whose latitudes all equal 200 fails with the
empty-dataset error. -/
theorem C9_witness :
    processar_excel_coordenadas
        (DataFrame.mk ["latitude", "longitude", "descricao"]
          [[Cell.num 200, Cell.num 10, Cell.str "a"],
           [Cell.num 200, Cell.num 20, Cell.str "b"]])
      = Except.error "Nenhuma coordenada válida encontrada no arquivo" :=
  C9_empty_after_cleaning.1 _ (by decide) (by decide) (by decide) (by decide)

end GeoCody
